import Mathlib

/-!
Verification development for the Kiro-Linkedin-Poster repository.

The repository contains two JavaScript agent implementations:
 * `LinkedInAINewsAgent` (src/unnamed/part_004): DuckDuckGo search, article
   normalization and filtering, relevance scoring, template-based LinkedIn
   post synthesis.
 * `AIGoodNewsAgent` (src/unnamed/part_005): NewsAPI/DuckDuckGo search with a
   persisted seen-articles list, Gemini-based analysis with a local fallback,
   and Gemini/template post generation.

JavaScript strings are modelled by Lean `String` (a wrapper around
`List Char`); the handful of string library operations used by the code
(`includes`, `toLowerCase`, `split`, `trim`, `substring`, `join`,
`String.prototype.match` with a global literal regex, `replace` of the tag
regex) are embedded as char-list functions below.  JavaScript numbers used
for scores are modelled by `ℚ` (the code only adds and compares small decimal
constants), and array indices by `Nat`.  Network and file-system effects are
modelled by explicit outcome parameters (`Except`) passed to the functions
that perform them.
-/

set_option maxRecDepth 2000

/-- Model of `haystack.includes(needle)`: scan the haystack left to right for
an occurrence of `sub` as a contiguous run.  `containsSub sub hay` is true iff
`sub` occurs inside `hay` (the empty pattern always occurs, as in JS). -/
def containsSub (sub : List Char) : List Char → Bool
  | [] => sub.isEmpty
  | c :: rest => sub.isPrefixOf (c :: rest) || containsSub sub rest

/-- Model of the JS string method `hay.includes(sub)`. -/
def jsIncludes (hay sub : String) : Bool :=
  containsSub sub.data hay.data

/-- Model of `s.toLowerCase()` (ASCII case mapping, which is all the agent
code relies on). -/
def jsToLower (s : String) : String :=
  String.mk (s.data.map Char.toLower)

/-- Model of `s.split(sep)` for a single-character separator, or of
`s.split(/[...]/)` for a single-character regex class: split at every
separator character, keeping empty pieces (as JS does). -/
def splitPred (p : Char → Bool) : List Char → List (List Char)
  | [] => [[]]
  | c :: rest =>
    match splitPred p rest with
    | [] => [[]]
    | piece :: pieces =>
      if p c then [] :: piece :: pieces else (c :: piece) :: pieces

/-- Model of `s.split(/[...]+/)`: split at maximal runs of separator
characters.  A leading or trailing separator run still contributes an empty
boundary piece, exactly as the JS regex split does. -/
def splitRuns (p : Char → Bool) : List Char → List (List Char)
  | [] => [[]]
  | c :: rest =>
    let tailPieces := splitRuns p rest
    if p c then
      match rest with
      | [] => [] :: tailPieces
      | d :: _ => if p d then tailPieces else [] :: tailPieces
    else
      match tailPieces with
      | [] => [[c]]
      | piece :: pieces => (c :: piece) :: pieces

/-- Model of `s.trim()`. -/
def jsTrim (s : String) : String :=
  String.mk (((s.data.dropWhile Char.isWhitespace).reverse.dropWhile
    Char.isWhitespace).reverse)

/-- Model of `s.substring(0, n)` for a clamped non-negative `n`. -/
def jsTake (s : String) (n : Nat) : String :=
  String.mk (s.data.take n)

/-- Model of `array.join(sep)`. -/
def joinSep (sep : String) : List String → String
  | [] => ""
  | [x] => x
  | x :: y :: xs => x ++ sep ++ joinSep sep (y :: xs)

/-- Model of `(text.match(new RegExp(pat, "g")) || []).length` for a literal
pattern without regex metacharacters: the number of non-overlapping,
left-to-right occurrences of `pat` in the text.  The agent only calls this
with plain lowercase keywords of length at least 3. -/
def countOcc (pat : List Char) : List Char → Nat
  | [] => 0
  | c :: rest =>
    if 0 < pat.length ∧ pat.isPrefixOf (c :: rest) then
      1 + countOcc pat (List.drop (pat.length - 1) rest)
    else
      countOcc pat rest
termination_by l => l.length
decreasing_by
  · simp only [List.length_drop, List.length_cons]
    omega
  · simp only [List.length_cons]
    omega

/-- Count of regex occurrences of `pat` inside `s` (string wrapper around
`countOcc`). -/
def countOccStr (s pat : String) : Nat :=
  countOcc pat.data s.data

/-- Model of `text.replace(/<[^>]*>/g, "")`: removes every span that starts
with `<`, continues with non-`>` characters and ends at the first `>`.  A `<`
that is never closed is kept literally together with everything after it,
matching the regex (which finds no match there). -/
def stripTagsAux : List Char → List Char → List Char
  | pending, [] => pending.reverse
  | pending, c :: rest =>
    match pending with
    | [] => if c == '<' then stripTagsAux [c] rest else c :: stripTagsAux [] rest
    | _ :: _ => if c == '>' then stripTagsAux [] rest else stripTagsAux (c :: pending) rest

/-- Model of the tag-stripping `replace` call on a whole char list. -/
def stripTags (l : List Char) : List Char :=
  stripTagsAux [] l

/-- Stable insertion used to model `Array.prototype.sort(comparator)`:
`le y x` holds when the comparator allows `y` to stay in front of `x`
(comparator value at most zero).  An incoming element is placed after every
element it does not strictly precede, which reproduces the stable order
mandated for `Array.prototype.sort`. -/
def insertLe {α : Type} (le : α → α → Bool) (x : α) : List α → List α
  | [] => [x]
  | y :: ys => if le y x then y :: insertLe le x ys else x :: y :: ys

/-- Stable sort modelling `array.sort(comparator)` with
`le a b = (comparator a b ≤ 0)`. -/
def sortLe {α : Type} (le : α → α → Bool) (l : List α) : List α :=
  l.foldl (fun acc x => insertLe le x acc) []

namespace LinkedInAINewsAgent

/- Configuration constants from the CONFIG object, src/unnamed/part_004
lines 301-360. -/

/-- CONFIG.aiKeywords (part_004 lines 303-314). -/
def aiKeywords : List String :=
  ["artificial intelligence", "machine learning", "OpenAI", "ChatGPT",
   "neural networks", "deep learning", "AI startups", "generative AI",
   "AI ethics", "AI regulation"]

/-- CONFIG.search.maxResults (part_004 line 318). -/
def maxResults : Nat := 10

/-- CONFIG.search.minRelevanceScore (part_004 line 320). -/
def minRelevanceScore : ℚ := 0.4

/-- CONFIG.posts.maxCharacters (part_004 line 327). -/
def maxCharacters : Nat := 3000

/-- CONFIG.posts.maxHashtags (part_004 line 329). -/
def maxHashtags : Nat := 5

/-- CONFIG.posts.styles (part_004 line 330). -/
def postStyles : List String := ["news_share", "question", "insight", "list"]

/-- CONFIG.sources.preferred (part_004 lines 336-343). -/
def preferredSources : List String :=
  ["techcrunch.com", "wired.com", "technologyreview.com", "venturebeat.com",
   "theverge.com", "arstechnica.com"]

/-- CONFIG.sources.excluded (part_004 line 344). -/
def excludedSources : List String := ["spam-site.com", "clickbait-news.com"]

/-- One normalized article (the object literals built in parseSearchResults,
part_004 lines 658-667 and 695-707).  The `publishedDate` field (always the
wall-clock time of the call) and the `keyPoints` field (always `[]` at
creation and recomputed from `summary` during post generation) carry no
information and are omitted. -/
structure Article where
  title : String := ""
  url : String := ""
  summary : String := ""
  source : String := ""
  relevanceScore : ℚ := 0
  searchQuery : String := ""
deriving DecidableEq

/-- One extracted key point (part_004 lines 1170-1173). -/
structure KeyPoint where
  text : String
  importance : Nat
deriving DecidableEq

/-- One generated LinkedIn post (part_004 lines 1087-1097).  The nested
`article` summary object is flattened into the two fields it carries. -/
structure Post where
  content : String
  hashtags : List String
  sourceUrl : String
  style : String
  characterCount : Nat
  articleTitle : String
  articleSource : String
deriving DecidableEq

/-- One entry of `RelatedTopics[i].Topics` or of `Results` in the DuckDuckGo
payload (fields read in part_004 lines 688-698 and 732-734).  Absent fields
are the empty string, which is falsy in JS. -/
structure TopicItem where
  FirstURL : String := ""
  Text : String := ""
deriving DecidableEq

/-- One entry of `RelatedTopics`: either a plain topic item or a nested group
carrying a `Topics` array (part_004 line 686, `topic.Topics ? topic.Topics :
[topic]`; any present array, even an empty one, is truthy). -/
structure Topic where
  Topics : Option (List TopicItem) := none
  FirstURL : String := ""
  Text : String := ""
deriving DecidableEq

/-- The DuckDuckGo instant-answer payload as read by parseSearchResults
(part_004 lines 648-775).  A missing `RelatedTopics`/`Results` array is
modelled by `[]` (the code guards with `Array.isArray`). -/
structure DDGResponse where
  Heading : String := ""
  AbstractURL : String := ""
  AbstractText : String := ""
  RelatedTopics : List Topic := []
  Results : List TopicItem := []
deriving DecidableEq

/-- isNewsWorthy newsIndicators list (part_004 lines 784-818). -/
def newsIndicators : List String :=
  ["announced", "launched", "released", "unveiled", "introduced",
   "breakthrough", "development", "research", "study", "report",
   "funding", "investment", "acquisition", "partnership", "regulation",
   "policy", "law", "ruling", "decision", "update", "version", "feature",
   "improvement", "innovation", "company", "startup", "corporation",
   "organization", "technology", "platform", "system", "tool", "application"]

/-- isNewsWorthy aiTerms list (part_004 lines 821-834). -/
def aiTerms : List String :=
  ["artificial intelligence", "machine learning", "neural network",
   "deep learning", "ai model", "algorithm", "automation", "chatgpt",
   "openai", "generative", "llm", "transformer"]

/-- isNewsWorthy (part_004 lines 780-843): the text must contain at least one
news indicator and at least one AI term. -/
def isNewsWorthy (text : String) : Bool :=
  let lowerText := jsToLower text
  let hasNewsIndicator := newsIndicators.any (fun indicator => jsIncludes lowerText indicator)
  let hasAITerm := aiTerms.any (fun term => jsIncludes lowerText term)
  hasNewsIndicator && hasAITerm

/-- High-value AI terms used by calculateRelevanceScore
(part_004 lines 958-965). -/
def highValueTerms : List String :=
  ["artificial intelligence", "machine learning", "neural network",
   "deep learning", "generative ai", "large language model"]

/-- Medium-value AI terms used by calculateRelevanceScore
(part_004 lines 973-980). -/
def mediumValueTerms : List String :=
  ["ai", "ml", "algorithm", "automation", "chatgpt", "openai"]

/-- News-related terms used by calculateRelevanceScore
(part_004 lines 988-994). -/
def newsTerms : List String :=
  ["announced", "launched", "breakthrough", "funding", "research"]

/-- Query-word extraction of calculateRelevanceScore (part_004 line 944):
`query.toLowerCase().split(" ")`. -/
def queryWordsOf (query : String) : List String :=
  (splitPred (fun c => c == ' ') (jsToLower query).data).map String.mk

/-- calculateRelevanceScore (part_004 lines 942-1003): 0.15 per occurrence of
each query word longer than 2 characters, 0.3 per high-value term present,
0.2 per medium-value term present, 0.1 per news term present, clamped
at 1.0. -/
def calculateRelevanceScore (text query : String) : ℚ :=
  let lowerText := jsToLower text
  let queryWords := queryWordsOf query
  let score : ℚ := queryWords.foldl
    (fun score word =>
      if 2 < word.length then score + (countOccStr lowerText word : ℚ) * 0.15 else score) 0
  let score := highValueTerms.foldl
    (fun score term => if jsIncludes lowerText term then score + 0.3 else score) score
  let score := mediumValueTerms.foldl
    (fun score term => if jsIncludes lowerText term then score + 0.2 else score) score
  let score := newsTerms.foldl
    (fun score term => if jsIncludes lowerText term then score + 0.1 else score) score
  min score 1

/-- extractTitleFromText (part_004 lines 930-940): first sentence, truncated
to 100 characters with an ellipsis, defaulting to a fixed title when the
first sentence is empty. -/
def extractTitleFromText (text : String) : String :=
  let sentences := (splitPred (fun c => c == '.' || c == '!' || c == '?') text.data).map String.mk
  let firstSentence := jsTrim (sentences.headD "")
  if 100 < firstSentence.length then
    jsTake firstSentence 97 ++ "..."
  else
    if firstSentence = "" then "AI News Article" else firstSentence

/-- Processing of one related-topic or direct-result item inside
parseSearchResults (part_004 lines 688-724 and 732-765; the two loops run the
same code).  Produces at most one article. -/
def processItem (domainOf : String → String) (originalQuery : String)
    (item : TopicItem) : List Article :=
  if item.FirstURL ≠ "" ∧ item.Text ≠ "" then
    let cleanText := jsTrim (String.mk (stripTags item.Text.data))
    if 100 < cleanText.length then
      let article : Article :=
        { title := extractTitleFromText cleanText
          url := item.FirstURL
          summary := cleanText
          source := domainOf item.FirstURL
          relevanceScore := calculateRelevanceScore cleanText originalQuery
          searchQuery := originalQuery }
      if isNewsWorthy article.summary ∧ (0.3 : ℚ) < article.relevanceScore then
        [article]
      else []
    else []
  else []

/-- parseSearchResults (part_004 lines 648-775).  `domainOf` abstracts the
`new URL(...).hostname` host extraction of extractDomain (lines 921-928),
which is a host-library call.  The direct abstract result receives the fixed
relevance score 0.9 (line 664); related topics and direct results are scored
with calculateRelevanceScore. -/
def parseSearchResults (domainOf : String → String) (data : DDGResponse)
    (originalQuery : String) : List Article :=
  let abstractArticles :=
    if data.AbstractURL ≠ "" ∧ data.AbstractText ≠ "" ∧ 50 < data.AbstractText.length then
      let article : Article :=
        { title := if data.Heading ≠ "" then data.Heading
                   else extractTitleFromText data.AbstractText
          url := data.AbstractURL
          summary := data.AbstractText
          source := domainOf data.AbstractURL
          relevanceScore := 0.9
          searchQuery := originalQuery }
      if isNewsWorthy article.summary then [article] else []
    else []
  let topicArticles := data.RelatedTopics.flatMap (fun topic =>
    let topicsToProcess :=
      match topic.Topics with
      | some nested => nested
      | none => [{ FirstURL := topic.FirstURL, Text := topic.Text : TopicItem }]
    topicsToProcess.flatMap (processItem domainOf originalQuery))
  let resultArticles := data.Results.flatMap (processItem domainOf originalQuery)
  abstractArticles ++ topicArticles ++ resultArticles

/-- The quality filter predicate of filterAndRankArticles
(part_004 lines 859-889): not from an excluded source, relevance score at
least the configured minimum, summary at least 100 characters. -/
def qualityPred (article : Article) : Bool :=
  !(excludedSources.any fun excluded =>
      jsIncludes (jsToLower article.source) (jsToLower excluded))
  && !(decide (article.relevanceScore < minRelevanceScore))
  && !(decide (article.summary.length < 100))

/-- URL deduplication of filterAndRankArticles (part_004 lines 853-856):
`articles.filter((article, index, self) => index === self.findIndex(a =>
a.url === article.url))` keeps exactly the first occurrence of every URL,
which this accumulator formulation computes directly. -/
def dedupByUrl (seen : List String) : List Article → List Article
  | [] => []
  | article :: rest =>
    if article.url ∈ seen then dedupByUrl seen rest
    else article :: dedupByUrl (article.url :: seen) rest

/-- The sort comparator of filterAndRankArticles (part_004 lines 892-906),
expressed as `comparator a b ≤ 0`: preferred-source articles first, then
descending relevance score. -/
def articleLe (a b : Article) : Bool :=
  let aPreferred := preferredSources.any (fun s => jsIncludes (jsToLower a.source) (jsToLower s))
  let bPreferred := preferredSources.any (fun s => jsIncludes (jsToLower b.source) (jsToLower s))
  if aPreferred && !bPreferred then true
  else if !aPreferred && bPreferred then false
  else decide (b.relevanceScore ≤ a.relevanceScore)

/-- filterAndRankArticles (part_004 lines 849-916): dedup by URL, quality
filter, stable sort by preference and relevance, cap at maxResults. -/
def filterAndRankArticles (articles : List Article) : List Article :=
  let uniqueArticles := dedupByUrl [] articles
  let qualityArticles := uniqueArticles.filter qualityPred
  let sorted := sortLe articleLe qualityArticles
  sorted.take maxResults

/-- duckDuckGoSearch (part_004 lines 564-643) for one keyword and timeframe.
`payload` abstracts the HTTP transport: `Except.ok` is a parsed 200 response,
`Except.error` covers request failure, timeout, a non-200 status or a JSON
parse failure, all of which make the keyword contribute zero articles (parse
failures resolve `[]` at line 628, transport rejections are caught per
keyword at lines 552-555 of performSearch). -/
def duckDuckGoSearch (domainOf : String → String)
    (payload : String → String → Except String DDGResponse)
    (query timeframe : String) : List Article :=
  match payload query timeframe with
  | Except.ok data => parseSearchResults domainOf data query
  | Except.error _ => []

/-- performSearch (part_004 lines 535-559): one search per configured
keyword, concatenating results; a failed keyword is skipped. -/
def performSearch (domainOf : String → String)
    (payload : String → String → Except String DDGResponse)
    (timeframe : String) : List Article :=
  aiKeywords.foldl
    (fun articles keyword =>
      articles ++ duckDuckGoSearch domainOf payload keyword timeframe) []

/-- searchAINews (part_004 lines 487-530): search the past day first, retry
once with the past week when the first batch is empty, then filter and rank.
The second component records which timeframes were searched.  The
cached-article fallback (lines 507-521) is unreachable in this model because
performSearch absorbs every per-keyword failure. -/
def searchAINews (domainOf : String → String)
    (payload : String → String → Except String DDGResponse) :
    List Article × List String :=
  let firstBatch := performSearch domainOf payload "d"
  if firstBatch.length = 0 then
    (filterAndRankArticles (performSearch domainOf payload "w"), ["d", "w"])
  else
    (filterAndRankArticles firstBatch, ["d"])

/-- Key-point indicator terms of isKeyPoint (part_004 lines 1188-1213). -/
def keyIndicators : List String :=
  ["announced", "launched", "released", "developed", "created",
   "breakthrough", "innovation", "improvement", "advancement", "funding",
   "investment", "partnership", "acquisition", "research", "study",
   "findings", "results", "discovered", "will", "can", "enables", "allows",
   "provides", "offers"]

/-- isKeyPoint (part_004 lines 1184-1220). -/
def isKeyPoint (sentence : String) : Bool :=
  let lowerSentence := jsToLower sentence
  keyIndicators.any (fun indicator => jsIncludes lowerSentence indicator)
  && decide (30 < sentence.length)
  && decide (sentence.length < 200)

/-- calculateImportance (part_004 lines 1225-1265). -/
def calculateImportance (sentence : String) : Nat :=
  let lowerSentence := jsToLower sentence
  let score := (["breakthrough", "revolutionary", "first", "new", "major"].foldl
    (fun score term => if jsIncludes lowerSentence term then score + 3 else score) 0)
  let score := (["announced", "launched", "developed", "funding", "partnership"].foldl
    (fun score term => if jsIncludes lowerSentence term then score + 2 else score) score)
  (["artificial intelligence", "machine learning", "neural network", "ai"].foldl
    (fun score term => if jsIncludes lowerSentence term then score + 1 else score) score)

/-- extractKeyPoints (part_004 lines 1157-1179): sentences longer than 20
trimmed characters, first five considered, kept when isKeyPoint holds, then
stably sorted by descending importance and capped at 3. -/
def extractKeyPoints (article : Article) : List KeyPoint :=
  let sentences := (splitRuns (fun c => c == '.' || c == '!' || c == '?')
    article.summary.data).map String.mk
  let sentences := sentences.filter (fun s => 20 < (jsTrim s).length)
  let keyPoints := (sentences.take 5).foldl
    (fun acc sentence =>
      let trimmed := jsTrim sentence
      if isKeyPoint trimmed then
        acc ++ [{ text := trimmed, importance := calculateImportance trimmed : KeyPoint }]
      else acc) []
  (sortLe (fun a b => b.importance ≤ a.importance) keyPoints).take 3

/-- The keyword-to-hashtag map of generateHashtags
(part_004 lines 1279-1295), in object-literal order. -/
def hashtagMap : List (String × String) :=
  [("machine learning", "#MachineLearning"), ("deep learning", "#DeepLearning"),
   ("neural network", "#NeuralNetworks"), ("chatgpt", "#ChatGPT"),
   ("openai", "#OpenAI"), ("generative", "#GenerativeAI"),
   ("startup", "#AIStartup"), ("funding", "#TechFunding"),
   ("research", "#AIResearch"), ("ethics", "#AIEthics"),
   ("regulation", "#AIRegulation"), ("automation", "#Automation"),
   ("innovation", "#Innovation"), ("technology", "#Technology"),
   ("future", "#FutureOfWork")]

/-- Insertion into the hashtag `Set` (insertion-ordered, duplicates
ignored). -/
def addTag (tags : List String) (tag : String) : List String :=
  if tag ∈ tags then tags else tags ++ [tag]

/-- generateHashtags (part_004 lines 1270-1311): the two core AI tags first,
then every map entry whose keyword occurs in the lowercased title+summary,
capped at maxHashtags. -/
def generateHashtags (article : Article) : List String :=
  let text := jsToLower (article.title ++ " " ++ article.summary)
  let tags := hashtagMap.foldl
    (fun tags kv => if jsIncludes text kv.1 then addTag tags kv.2 else tags)
    ["#ArtificialIntelligence", "#AI"]
  tags.take maxHashtags

/-- The hook list of getEngagingHook (part_004 lines 1317-1325). -/
def hooks : List String :=
  ["🚀 Exciting developments in AI:",
   "💡 This caught my attention in today\x27s AI news:",
   "🔥 Hot off the press in artificial intelligence:",
   "⚡ Breaking: Major AI advancement just announced:",
   "🎯 Here\x27s what\x27s making waves in the AI world:",
   "🌟 Fascinating AI breakthrough to share:",
   "📈 The AI industry just took another big step forward:"]

/-- getEngagingHook (part_004 lines 1316-1328).  The call
`Math.floor(Math.random() * hooks.length)` is modelled by an arbitrary
natural number reduced modulo the list length. -/
def getEngagingHook (randomChoice : Nat) : String :=
  hooks.getD (randomChoice % hooks.length) ""

/-- createSummary (part_004 lines 1333-1347): the most important key point
when one exists, otherwise the article summary, ellipsis-truncated to
`maxLength`.  Every caller passes `maxLength ≥ 100 ≥ 3`. -/
def createSummary (article : Article) (keyPoints : List KeyPoint)
    (maxLength : Nat) : String :=
  let summary :=
    match keyPoints with
    | [] => article.summary
    | kp :: _ => kp.text
  if maxLength < summary.length then jsTake summary (maxLength - 3) ++ "..."
  else summary

/-- extractMainTopic (part_004 lines 1352-1367). -/
def extractMainTopic (article : Article) : String :=
  let text := jsToLower article.title
  if jsIncludes text "chatgpt" || jsIncludes text "openai" then "ChatGPT/OpenAI"
  else if jsIncludes text "machine learning" then "machine learning"
  else if jsIncludes text "deep learning" then "deep learning"
  else if jsIncludes text "neural network" then "neural networks"
  else if jsIncludes text "generative" then "generative AI"
  else if jsIncludes text "startup" then "AI startups"
  else if jsIncludes text "regulation" || jsIncludes text "policy" then "AI regulation"
  else if jsIncludes text "ethics" then "AI ethics"
  else "artificial intelligence"

/-- The insight list of generateInsights (part_004 lines 1377-1383). -/
def insights : List String :=
  ["This could significantly impact how businesses approach AI integration.",
   "The implications for the future of work are worth considering.",
   "This advancement opens up new possibilities for AI applications.",
   "The competitive landscape in AI continues to evolve rapidly.",
   "This highlights the accelerating pace of AI innovation."]

/-- generateInsights (part_004 lines 1372-1386), with the random index
modelled as in getEngagingHook. -/
def generateInsights (keyPoints : List KeyPoint) (randomChoice : Nat) : String :=
  match keyPoints with
  | [] => "This development represents another step forward in AI capabilities."
  | _ :: _ => insights.getD (randomChoice % insights.length) ""

/-- createNewsSharePost (part_004 lines 1103-1108). -/
def createNewsSharePost (article : Article) (keyPoints : List KeyPoint)
    (hookChoice : Nat) : String :=
  let hook := getEngagingHook hookChoice
  let summary := createSummary article keyPoints 200
  hook ++ "\n\n" ++ summary ++ "\n\nWhat are your thoughts on this development?"

/-- createQuestionPost (part_004 lines 1113-1129). -/
def createQuestionPost (article : Article) (keyPoints : List KeyPoint)
    (questionChoice : Nat) : String :=
  let questions :=
    ["How do you think " ++ extractMainTopic article ++ " will impact the industry?",
     "What\x27s your take on this latest development in AI?",
     "Do you see this as a breakthrough or just incremental progress?",
     "How might this change the way we work with AI?",
     "What opportunities does this create for businesses?"]
  let randomQuestion := questions.getD (questionChoice % questions.length) ""
  let summary := createSummary article keyPoints 150
  "🤔 " ++ randomQuestion ++ "\n\n" ++ summary ++
    "\n\nI\x27d love to hear your perspectives in the comments!"

/-- createInsightPost (part_004 lines 1134-1139). -/
def createInsightPost (article : Article) (keyPoints : List KeyPoint)
    (insightChoice : Nat) : String :=
  let insight := generateInsights keyPoints insightChoice
  let summary := createSummary article keyPoints 150
  "💡 Key insight from today\x27s AI news:\n\n" ++ summary ++ "\n\n" ++ insight ++
    "\n\nThis could be a game-changer for how we approach AI development."

/-- Numbered list items of createListPost (part_004 lines 1146-1149). -/
def numberItems : Nat → List KeyPoint → List String
  | _, [] => []
  | i, p :: rest => (toString (i + 1) ++ ". " ++ p.text) :: numberItems (i + 1) rest

/-- createListPost (part_004 lines 1144-1152). -/
def createListPost (article : Article) (keyPoints : List KeyPoint) : String :=
  let summary := createSummary article keyPoints 100
  let listItems := joinSep "\n" (numberItems 0 (keyPoints.take 3))
  "📋 Key takeaways from the latest AI news:\n\n" ++ summary ++
    "\n\nMain points:\n" ++ listItems ++ "\n\nWhich point resonates most with you?"

/-- The style switch of createLinkedInPost (part_004 lines 1054-1069), with
the default case falling back to the news-share template.  The three `Nat`
arguments model the independent `Math.random()` draws inside the hook,
question and insight selectors. -/
def styleContent (article : Article) (keyPoints : List KeyPoint) (style : String)
    (hookChoice questionChoice insightChoice : Nat) : String :=
  if style = "news_share" then createNewsSharePost article keyPoints hookChoice
  else if style = "question" then createQuestionPost article keyPoints questionChoice
  else if style = "insight" then createInsightPost article keyPoints insightChoice
  else if style = "list" then createListPost article keyPoints
  else createNewsSharePost article keyPoints hookChoice

/-- createLinkedInPost (part_004 lines 1048-1098): build the styled body,
compute the character budget `maxCharacters - hashtags - source line - 10`,
ellipsis-truncate the body when it exceeds the budget (JS
`substring(0, maxContentLength - 3)` clamps a negative bound to 0), then
append the hashtag block and the source line. -/
def createLinkedInPost (article : Article) (style : String)
    (hookChoice questionChoice insightChoice : Nat) : Post :=
  let keyPoints := extractKeyPoints article
  let hashtags := generateHashtags article
  let content := styleContent article keyPoints style hookChoice questionChoice insightChoice
  let hashtagString := joinSep " " hashtags
  let sourceText := "\n\nSource: " ++ article.url
  let maxContentLength : Int :=
    (maxCharacters : Int) - hashtagString.length - sourceText.length - 10
  let content :=
    if maxContentLength < (content.length : Int) then
      jsTake content (maxContentLength - 3).toNat ++ "..."
    else content
  let finalContent := content ++ "\n\n" ++ hashtagString ++ sourceText
  { content := finalContent
    hashtags := hashtags
    sourceUrl := article.url
    style := style
    characterCount := finalContent.length
    articleTitle := article.title
    articleSource := article.source }

end LinkedInAINewsAgent

namespace AIGoodNewsAgent

/-- One article as built by searchWithNewsAPI / searchWithDuckDuckGo
(src/unnamed/part_005 lines 78-85 and 108-115). -/
structure Article where
  title : String := ""
  description : String := ""
  url : String := ""
  source : String := ""
  publishedAt : String := ""
  content : String := ""
deriving DecidableEq

/-- One ranked entry of an analysis, the shape requested from Gemini
(part_005 lines 154-163) and produced by fallbackAnalysis
(lines 228-239). -/
structure TopArticle where
  rank : Nat := 0
  title : String := ""
  summary : String := ""
  whyPositive : String := ""
  keyPoints : List String := []
  originalIndex : Nat := 0
deriving DecidableEq

/-- The analysis object (part_005 lines 153-165 and 241-244). -/
structure Analysis where
  topArticles : List TopArticle := []
  overallTrend : String := ""
deriving DecidableEq

/-- One scored article of fallbackAnalysis (part_005 line 222): the spread
`{ ...article, score, originalIndex }`. -/
structure ScoredArticle where
  article : Article
  score : Nat
  originalIndex : Nat
deriving DecidableEq

/-- The positive keywords of fallbackAnalysis (part_005 line 212). -/
def positiveKeywords : List String :=
  ["breakthrough", "innovation", "advancement", "progress", "success",
   "achievement", "improvement"]

/-- The per-article score of fallbackAnalysis (part_005 lines 214-223): one
point per positive keyword occurring in the lowercased title+description. -/
def scoreOf (article : Article) : Nat :=
  let text := jsToLower (article.title ++ " " ++ article.description)
  positiveKeywords.foldl
    (fun score keyword => if jsIncludes text keyword then score + 1 else score) 0

/-- The indexed scoring map of fallbackAnalysis (part_005 lines 214-223):
`articles.map((article, index) => ({ ...article, score, originalIndex:
index }))`. -/
def scoreArticles : Nat → List Article → List ScoredArticle
  | _, [] => []
  | index, article :: rest =>
    { article := article, score := scoreOf article, originalIndex := index } ::
      scoreArticles (index + 1) rest

/-- The ranked mapping of fallbackAnalysis (part_005 lines 225-239):
`.map((article, rank) => ({ rank: rank + 1, ... }))` with fixed template
narrative fields. -/
def rankArticles : Nat → List ScoredArticle → List TopArticle
  | _, [] => []
  | rank, scored :: rest =>
    { rank := rank + 1
      title := scored.article.title
      summary := scored.article.description
      whyPositive := "This development represents positive progress in AI technology"
      keyPoints :=
        ["Advances the field of artificial intelligence",
         "Demonstrates practical applications of AI",
         "Shows continued innovation in the sector"]
      originalIndex := scored.originalIndex } :: rankArticles (rank + 1) rest

/-- fallbackAnalysis (part_005 lines 210-245): score every article, sort by
descending score (stable, comparator `b.score - a.score`), keep the top 3,
attach ranks 1..N and fixed template text. -/
def fallbackAnalysis (articles : List Article) : Analysis :=
  let scored := scoreArticles 0 articles
  let topArticles :=
    rankArticles 0 ((sortLe (fun a b => b.score ≤ a.score) scored).take 3)
  { topArticles := topArticles
    overallTrend := "The AI field continues to show positive developments with new breakthroughs and innovations emerging regularly." }

/-- analyzeWithGemini (part_005 lines 127-175).  `geminiApiKey` is the
configured credential (`none` models a missing GEMINI_API_KEY); `backend`
is the combined outcome of callGeminiAPI plus `JSON.parse` of its text
(lines 169-170), which sits inside the try/catch at lines 168-174.  The
returned Bool records whether the network-calling branch was entered at all:
without a key the function returns the fallback before any request. -/
def analyzeWithGemini (geminiApiKey : Option String)
    (backend : Except String Analysis) (articles : List Article) :
    Analysis × Bool :=
  match geminiApiKey with
  | none => (fallbackAnalysis articles, false)
  | some _ =>
    match backend with
    | Except.ok analysis => (analysis, true)
    | Except.error _ => (fallbackAnalysis articles, true)

/-- generateFallbackPost (part_005 lines 287-306).  The accesses
`analysis.topArticles[0]` and `articles[topArticle.originalIndex]` throw a
TypeError when the index is out of range (the code performs no bounds
check); a thrown error is modelled by `Except.error`. -/
def generateFallbackPost (analysis : Analysis) (articles : List Article) :
    Except String String :=
  match analysis.topArticles.head? with
  | none => Except.error "TypeError: topArticles[0] is undefined"
  | some topArticle =>
    match articles[topArticle.originalIndex]? with
    | none => Except.error "TypeError: originalArticle is undefined"
    | some originalArticle =>
      Except.ok
        ("🚀 Exciting developments in AI! \n\n" ++ topArticle.title ++ "\n\n" ++
         topArticle.summary ++
         "\n\nThis is exactly the kind of positive progress we need to see in artificial intelligence - innovation that moves the field forward and creates real value.\n\nWhat are your thoughts on this development? How do you see AI evolving in your industry?\n\n#ArtificialIntelligence #AI #Innovation #Technology #FutureOfWork\n\nSource: "
         ++ originalArticle.url)

/-- formatLinkedInPost (part_005 lines 308-315): append the source line
exactly when the backend text contains no "http" and the url is truthy.  No
truncation and no hashtag handling happen here. -/
def formatLinkedInPost (post sourceUrl : String) : String :=
  if jsIncludes post "http" = false ∧ sourceUrl ≠ "" then
    post ++ "\n\nSource: " ++ sourceUrl
  else post

/-- generateLinkedInPost (part_005 lines 247-285).  Without an API key the
template fallback runs.  With a key, `analysis.topArticles[0]` and
`articles[topArticle.originalIndex]` are read before the try/catch to build
the prompt (lines 254-264), so an out-of-range index throws out of the
function; otherwise `backendPost` (the callGeminiAPI outcome, lines 278-284)
is formatted on success and the fallback runs on failure. -/
def generateLinkedInPost (geminiApiKey : Option String) (analysis : Analysis)
    (articles : List Article) (backendPost : Except String String) :
    Except String String :=
  match geminiApiKey with
  | none => generateFallbackPost analysis articles
  | some _ =>
    match analysis.topArticles.head? with
    | none => Except.error "TypeError: topArticles[0] is undefined"
    | some topArticle =>
      match articles[topArticle.originalIndex]? with
      | none => Except.error "TypeError: originalArticle is undefined"
      | some originalArticle =>
        match backendPost with
        | Except.ok post => Except.ok (formatLinkedInPost post originalArticle.url)
        | Except.error _ => generateFallbackPost analysis articles

/-- The seen-marking loop of run (part_005 lines 338-342): push every
not-yet-seen URL. -/
def markSeen (seen : List String) (articles : List Article) : List String :=
  articles.foldl (fun seen article =>
    if article.url ∈ seen then seen else seen ++ [article.url]) seen

/-- Observable outcome of one run: the success flag of the returned object,
the seenArticles list after the run, and whether saveSeenArticles
(part_005 lines 22-24) was executed. -/
structure RunResult where
  success : Bool
  seenAfter : List String
  saved : Bool
deriving DecidableEq

/-- run (part_005 lines 317-366).  `searchOutcome` is the searchAINews
result (`Except.error` models a throw), `analyzeStep` the analyzeWithGemini
stage (which never throws: every backend failure falls back locally) and
`generateStep` the generateLinkedInPost stage (`Except.error` models a
throw, caught by the catch at lines 359-365).  Seen articles are marked and
saved only after step 3 produced a post; the result construction at lines
347-357 afterwards indexes `articles[article.originalIndex]` for every top
article and throws on an out-of-range index, which lands in the catch after
the save already happened. -/
def run (seen : List String) (searchOutcome : Except String (List Article))
    (analyzeStep : List Article → Analysis)
    (generateStep : Analysis → List Article → Except String String) : RunResult :=
  match searchOutcome with
  | Except.error _ => { success := false, seenAfter := seen, saved := false }
  | Except.ok articles =>
    if articles.length = 0 then
      { success := false, seenAfter := seen, saved := false }
    else
      let analysis := analyzeStep articles
      match generateStep analysis articles with
      | Except.error _ => { success := false, seenAfter := seen, saved := false }
      | Except.ok _ =>
        let seenAfter := markSeen seen articles
        if analysis.topArticles.all (fun t => t.originalIndex < articles.length) then
          { success := true, seenAfter := seenAfter, saved := true }
        else
          { success := false, seenAfter := seenAfter, saved := true }

end AIGoodNewsAgent

namespace LinkedInAINewsAgent

/-- Modelled from the spec wording for the relevance-score claim: the
keyword component, "0.15 per occurrence of each query keyword longer than 2
characters". -/
def keywordScore (lowerText : String) (queryWords : List String) : ℚ :=
  ((queryWords.filter (fun w => 2 < w.length)).map
    (fun w => (countOccStr lowerText w : ℚ) * 0.15)).sum

/-- Modelled from the spec wording for the relevance-score claim: a fixed
bonus for each term of a list that is present in the text. -/
def presenceBonus (lowerText : String) (terms : List String) (bonus : ℚ) : ℚ :=
  ((terms.filter (fun t => jsIncludes lowerText t)).length : ℚ) * bonus

/-- The conjunction of quality properties asserted for filtered articles:
score within bounds and above the configured minimum, summary long enough,
source not matching the denylist case-insensitively. -/
def qualityProps (a : Article) : Prop :=
  0 ≤ a.relevanceScore ∧ a.relevanceScore ≤ 1 ∧
  minRelevanceScore ≤ a.relevanceScore ∧ 100 ≤ a.summary.length ∧
  ∀ e ∈ excludedSources, jsIncludes (jsToLower a.source) (jsToLower e) = false

/-- A 3000-character URL, used to exhibit the character-budget overflow of
createLinkedInPost. -/
def bigUrl : String := String.mk (List.replicate 3000 'a')

/-- An article whose URL alone exceeds the whole post budget. -/
def longUrlArticle : Article :=
  { title := "", url := bigUrl, summary := "", source := "",
    relevanceScore := 1, searchQuery := "" }

/-- A well-formed demonstration article with a short URL. -/
def demoArticle : Article :=
  { title := "AI breakthrough announced"
    url := "https://techcrunch.com/ai-breakthrough"
    summary := "Researchers announced a major breakthrough in machine learning systems that enables faster training of large models across many industrial applications."
    source := "techcrunch.com"
    relevanceScore := 1
    searchQuery := "artificial intelligence" }

/-- A duplicate of demoArticle under a different title but the same URL. -/
def demoArticleDup : Article :=
  { title := "Duplicate coverage of the same story"
    url := "https://techcrunch.com/ai-breakthrough"
    summary := "Researchers announced a major breakthrough in machine learning systems that enables faster training of large models across many industrial applications."
    source := "techcrunch.com"
    relevanceScore := 1
    searchQuery := "artificial intelligence" }

/-- Input list containing a URL duplicate. -/
def demoDupList : List Article := [demoArticle, demoArticleDup]

/-- Abstract text of the direct-result counterexample payload. -/
def demoAbstractText : String :=
  "Researchers announced new results in artificial intelligence and reported steady progress across many real applications today."

/-- A DuckDuckGo payload whose only content is a direct abstract result. -/
def demoDDGData : DDGResponse :=
  { Heading := "", AbstractURL := "https://example.org/ai-progress",
    AbstractText := demoAbstractText, RelatedTopics := [], Results := [] }

end LinkedInAINewsAgent

namespace AIGoodNewsAgent

/-- A demonstration article for the part_005 agent. -/
def demoItem : Article :=
  { title := "Big breakthrough in AI research"
    description := "A genuine innovation showing progress and success"
    url := "https://example.com/breakthrough"
    source := "example.com", publishedAt := "", content := "" }

/-- A second, lower-scoring demonstration article. -/
def demoItemTwo : Article :=
  { title := "Minor product note"
    description := "Nothing remarkable happened here"
    url := "https://example.com/minor"
    source := "example.com", publishedAt := "", content := "" }

/-- A two-article demonstration batch. -/
def demoBatch : List Article := [demoItem, demoItemTwo]

/-- An analysis as a generative backend could return it, carrying an
out-of-range originalIndex. -/
def badAnalysis : Analysis :=
  { topArticles :=
      [{ rank := 1, title := "T", summary := "S", whyPositive := "W",
         keyPoints := [], originalIndex := 5 }]
    overallTrend := "t" }

/-- An analysis whose only entry references index 0. -/
def okAnalysis : Analysis :=
  { topArticles :=
      [{ rank := 1, title := "T", summary := "S", whyPositive := "W",
         keyPoints := [], originalIndex := 0 }]
    overallTrend := "t" }

/-- A 3500-character backend post body. -/
def longBackendPost : String := String.mk (List.replicate 3500 'b')

end AIGoodNewsAgent

/-! Helper lemmas about the generic JS models. -/

open LinkedInAINewsAgent

theorem insertLe_perm {α : Type} (le : α → α → Bool) (x : α) :
    ∀ l : List α, (insertLe le x l).Perm (x :: l)
  | [] => List.Perm.refl _
  | y :: ys => by
    simp only [insertLe]
    split
    · exact ((insertLe_perm le x ys).cons y).trans (List.Perm.swap x y ys)
    · exact List.Perm.refl _

theorem foldl_insertLe_perm {α : Type} (le : α → α → Bool) :
    ∀ (l acc : List α),
      (l.foldl (fun acc x => insertLe le x acc) acc).Perm (acc ++ l)
  | [], acc => by simp
  | x :: xs, acc => by
    simp only [List.foldl_cons]
    refine (foldl_insertLe_perm le xs (insertLe le x acc)).trans ?_
    refine (List.Perm.append_right xs (insertLe_perm le x acc)).trans ?_
    exact List.perm_middle.symm

theorem sortLe_perm {α : Type} (le : α → α → Bool) (l : List α) :
    (sortLe le l).Perm l := by
  simpa [sortLe] using foldl_insertLe_perm le l []

theorem sortLe_length {α : Type} (le : α → α → Bool) (l : List α) :
    (sortLe le l).length = l.length :=
  (sortLe_perm le l).length_eq

theorem containsSub_replicate_ne (c p : Char) (ps : List Char) (hne : p ≠ c) :
    ∀ n : Nat, containsSub (p :: ps) (List.replicate n c) = false := by
  intro n
  induction n with
  | zero => rfl
  | succ n ih =>
    rw [List.replicate_succ]
    simp only [containsSub, List.isPrefixOf, Bool.or_eq_false_iff,
      Bool.and_eq_false_iff]
    exact ⟨Or.inl (by simpa using hne), ih⟩

theorem dedupByUrl_find :
    ∀ (l : List Article) (seen : List String) (a : Article),
      a ∈ dedupByUrl seen l →
      a.url ∉ seen ∧ l.find? (fun b => b.url == a.url) = some a := by
  intro l
  induction l with
  | nil => intro seen a ha; simp [dedupByUrl] at ha
  | cons hd tl ih =>
    intro seen a ha
    by_cases hseen : hd.url ∈ seen
    · rw [dedupByUrl, if_pos hseen] at ha
      obtain ⟨hnot, hfind⟩ := ih seen a ha
      have hne : (hd.url == a.url) = false := by
        rw [beq_eq_false_iff_ne]
        intro h
        exact hnot (h ▸ hseen)
      exact ⟨hnot, by rw [List.find?_cons, hne]; exact hfind⟩
    · rw [dedupByUrl, if_neg hseen] at ha
      rcases List.mem_cons.mp ha with rfl | ha
      · exact ⟨hseen, by rw [List.find?_cons, beq_self_eq_true]⟩
      · obtain ⟨hnot, hfind⟩ := ih (hd.url :: seen) a ha
        have hne : a.url ≠ hd.url := fun h => hnot (by simp [h])
        have hnotseen : a.url ∉ seen := fun h => hnot (by simp [h])
        have hbe : (hd.url == a.url) = false := by
          rw [beq_eq_false_iff_ne]
          exact fun h => hne h.symm
        exact ⟨hnotseen, by rw [List.find?_cons, hbe]; exact hfind⟩

theorem dedupByUrl_subset (l : List Article) (seen : List String) (a : Article)
    (ha : a ∈ dedupByUrl seen l) : a ∈ l :=
  List.mem_of_find?_eq_some (dedupByUrl_find l seen a ha).2

theorem dedupByUrl_pairwise :
    ∀ (l : List Article) (seen : List String),
      (dedupByUrl seen l).Pairwise (fun a b => a.url ≠ b.url) := by
  intro l
  induction l with
  | nil => intro seen; simp [dedupByUrl]
  | cons hd tl ih =>
    intro seen
    by_cases hseen : hd.url ∈ seen
    · rw [dedupByUrl, if_pos hseen]; exact ih seen
    · rw [dedupByUrl, if_neg hseen]
      refine List.Pairwise.cons ?_ (ih (hd.url :: seen))
      intro b hb
      have := (dedupByUrl_find tl (hd.url :: seen) b hb).1
      exact fun h => this (by simp [h])

theorem foldl_boolite_add (q : String → Bool) (b : ℚ) :
    ∀ (l : List String) (s : ℚ),
      l.foldl (fun acc x => if q x then acc + b else acc) s
        = s + ((l.filter q).length : ℚ) * b := by
  intro l
  induction l with
  | nil => intro s; simp
  | cons x xs ih =>
    intro s
    simp only [List.foldl_cons, List.filter_cons]
    by_cases h : q x = true
    · rw [if_pos h, if_pos h, ih]
      simp only [List.length_cons]
      push_cast
      ring
    · rw [if_neg h, if_neg (by simpa using h), ih]

theorem foldl_lenite_add (lowerText : String) :
    ∀ (l : List String) (s : ℚ),
      l.foldl (fun acc w =>
          if 2 < w.length then acc + (countOccStr lowerText w : ℚ) * 0.15 else acc) s
        = s + ((l.filter (fun w => 2 < w.length)).map
            (fun w => (countOccStr lowerText w : ℚ) * 0.15)).sum := by
  intro l
  induction l with
  | nil => intro s; simp
  | cons x xs ih =>
    intro s
    simp only [List.foldl_cons, List.filter_cons]
    by_cases h : 2 < x.length
    · rw [if_pos h, if_pos (by simpa using h), ih]
      simp only [List.map_cons, List.sum_cons]
      ring
    · rw [if_neg h, if_neg (by simpa using h), ih]

theorem calculateRelevanceScore_eq (text query : String) :
    calculateRelevanceScore text query
      = min (keywordScore (jsToLower text) (queryWordsOf query)
          + presenceBonus (jsToLower text) highValueTerms 0.3
          + presenceBonus (jsToLower text) mediumValueTerms 0.2
          + presenceBonus (jsToLower text) newsTerms 0.1) 1 := by
  simp only [calculateRelevanceScore, keywordScore, presenceBonus]
  rw [foldl_lenite_add, foldl_boolite_add, foldl_boolite_add, foldl_boolite_add]
  congr 1
  ring

theorem calculateRelevanceScore_le_one (text query : String) :
    calculateRelevanceScore text query ≤ 1 := by
  rw [calculateRelevanceScore_eq]
  exact min_le_right _ _

theorem keywordScore_nonneg (lowerText : String) (ws : List String) :
    0 ≤ keywordScore lowerText ws := by
  unfold keywordScore
  refine List.sum_nonneg ?_
  intro x hx
  simp only [List.mem_map] at hx
  obtain ⟨w, _, rfl⟩ := hx
  positivity

theorem presenceBonus_nonneg (lowerText : String) (terms : List String)
    (bonus : ℚ) (hb : 0 ≤ bonus) : 0 ≤ presenceBonus lowerText terms bonus := by
  unfold presenceBonus
  positivity

theorem calculateRelevanceScore_nonneg (text query : String) :
    0 ≤ calculateRelevanceScore text query := by
  rw [calculateRelevanceScore_eq]
  refine le_min ?_ (by norm_num)
  have h1 := keywordScore_nonneg (jsToLower text) (queryWordsOf query)
  have h2 := presenceBonus_nonneg (jsToLower text) highValueTerms 0.3 (by norm_num)
  have h3 := presenceBonus_nonneg (jsToLower text) mediumValueTerms 0.2 (by norm_num)
  have h4 := presenceBonus_nonneg (jsToLower text) newsTerms 0.1 (by norm_num)
  linarith

theorem jsTake_length (s : String) (n : Nat) :
    (jsTake s n).length = min n s.length :=
  List.length_take n s.data

theorem addTag_eq (tags : List String) (tag : String) :
    addTag tags tag = tags ++ (if tag ∈ tags then [] else [tag]) := by
  unfold addTag
  split <;> simp

theorem foldl_addTag_shape (text : String) :
    ∀ (kvs : List (String × String)) (acc : List String),
      ∃ r, kvs.foldl
        (fun tags kv => if jsIncludes text kv.1 then addTag tags kv.2 else tags) acc
        = acc ++ r := by
  intro kvs
  induction kvs with
  | nil => intro acc; exact ⟨[], by simp⟩
  | cons kv kvs ih =>
    intro acc
    simp only [List.foldl_cons]
    by_cases h : jsIncludes text kv.1 = true
    · rw [if_pos h]
      obtain ⟨r, hr⟩ := ih (addTag acc kv.2)
      refine ⟨(if kv.2 ∈ acc then [] else [kv.2]) ++ r, ?_⟩
      rw [hr, addTag_eq, List.append_assoc]
    · rw [if_neg h]; exact ih acc

theorem generateHashtags_shape (a : Article) :
    ∃ r, generateHashtags a = "#ArtificialIntelligence" :: "#AI" :: r := by
  obtain ⟨r, hr⟩ := foldl_addTag_shape
    (jsToLower (a.title ++ " " ++ a.summary)) hashtagMap
    ["#ArtificialIntelligence", "#AI"]
  refine ⟨r.take 3, ?_⟩
  simp only [generateHashtags]
  rw [hr]
  simp [maxHashtags, List.take_succ_cons]

theorem generateHashtags_length (a : Article) :
    (generateHashtags a).length ≤ 5 := by
  unfold generateHashtags
  simp [maxHashtags, List.length_take_le]

theorem createLinkedInPost_characterCount (article : Article) (style : String)
    (hr qr ir : Nat) :
    (createLinkedInPost article style hr qr ir).characterCount =
      (if ((maxCharacters : Int)
            - (joinSep " " (generateHashtags article)).length
            - ("\n\nSource: " ++ article.url).length - 10
          < ((styleContent article (extractKeyPoints article) style hr qr ir).length : Int)) then
        min ((maxCharacters : Int)
            - (joinSep " " (generateHashtags article)).length
            - ("\n\nSource: " ++ article.url).length - 10 - 3).toNat
          (styleContent article (extractKeyPoints article) style hr qr ir).length + 3
      else (styleContent article (extractKeyPoints article) style hr qr ir).length)
      + 2 + (joinSep " " (generateHashtags article)).length
      + ("\n\nSource: " ++ article.url).length := by
  simp only [createLinkedInPost]
  split
  · simp [String.length_append, jsTake_length,
      show ("..." : String).length = 3 from rfl,
      show ("\n\n" : String).length = 2 from rfl]
  · simp [String.length_append, show ("\n\n" : String).length = 2 from rfl]

theorem processItem_mem_score (domainOf : String → String) (query : String)
    (item : TopicItem) (a : Article) (ha : a ∈ processItem domainOf query item) :
    a.relevanceScore = calculateRelevanceScore a.summary query := by
  simp only [processItem] at ha
  split_ifs at ha
  all_goals
    first
    | (rcases List.mem_singleton.mp ha with rfl; rfl)
    | exact absurd ha (List.not_mem_nil a)

theorem parseSearchResults_mem_score (domainOf : String → String)
    (data : DDGResponse) (query : String) (a : Article)
    (ha : a ∈ parseSearchResults domainOf data query) :
    a.relevanceScore = 0.9 ∨ a.relevanceScore = calculateRelevanceScore a.summary query := by
  simp only [parseSearchResults] at ha
  rcases List.mem_append.mp ha with ha | ha
  · rcases List.mem_append.mp ha with ha | ha
    · split_ifs at ha
      all_goals
        first
        | (rcases List.mem_singleton.mp ha with rfl; exact Or.inl rfl)
        | exact absurd ha (List.not_mem_nil a)
    · obtain ⟨topic, _, ha⟩ := List.mem_flatMap.mp ha
      obtain ⟨item, _, ha⟩ := List.mem_flatMap.mp ha
      exact Or.inr (processItem_mem_score domainOf query item a ha)
  · obtain ⟨item, _, ha⟩ := List.mem_flatMap.mp ha
    exact Or.inr (processItem_mem_score domainOf query item a ha)

theorem parseSearchResults_score_bounds (domainOf : String → String)
    (data : DDGResponse) (query : String) (a : Article)
    (ha : a ∈ parseSearchResults domainOf data query) :
    0 ≤ a.relevanceScore ∧ a.relevanceScore ≤ 1 := by
  rcases parseSearchResults_mem_score domainOf data query a ha with h | h
  · rw [h]; norm_num
  · rw [h]
    exact ⟨calculateRelevanceScore_nonneg _ _, calculateRelevanceScore_le_one _ _⟩

theorem foldl_append_mem {α β : Type} (g : β → List α) :
    ∀ (ks : List β) (init : List α) (a : α),
      a ∈ ks.foldl (fun acc k => acc ++ g k) init →
      a ∈ init ∨ ∃ k, k ∈ ks ∧ a ∈ g k := by
  intro ks
  induction ks with
  | nil => intro init a ha; exact Or.inl ha
  | cons k ks ih =>
    intro init a ha
    simp only [List.foldl_cons] at ha
    rcases ih (init ++ g k) a ha with h | ⟨k2, hk2, hak2⟩
    · rcases List.mem_append.mp h with h | h
      · exact Or.inl h
      · exact Or.inr ⟨k, by simp, h⟩
    · exact Or.inr ⟨k2, by simp [hk2], hak2⟩

theorem performSearch_score_bounds (domainOf : String → String)
    (payload : String → String → Except String DDGResponse)
    (timeframe : String) (a : Article)
    (ha : a ∈ performSearch domainOf payload timeframe) :
    0 ≤ a.relevanceScore ∧ a.relevanceScore ≤ 1 := by
  unfold performSearch at ha
  rcases foldl_append_mem _ aiKeywords [] a ha with h | ⟨kw, _, hkw⟩
  · simp at h
  · unfold duckDuckGoSearch at hkw
    split at hkw
    · exact parseSearchResults_score_bounds domainOf _ kw a hkw
    · simp at hkw

/-! Helper lemmas about the AIGoodNewsAgent embedding. -/

theorem scoreArticles_length :
    ∀ (i : Nat) (l : List AIGoodNewsAgent.Article),
      (AIGoodNewsAgent.scoreArticles i l).length = l.length := by
  intro i l
  induction l generalizing i with
  | nil => rfl
  | cons a rest ih => simp [AIGoodNewsAgent.scoreArticles, ih]

theorem scoreArticles_originalIndex :
    ∀ (i : Nat) (l : List AIGoodNewsAgent.Article)
      (s : AIGoodNewsAgent.ScoredArticle),
      s ∈ AIGoodNewsAgent.scoreArticles i l → s.originalIndex < i + l.length := by
  intro i l
  induction l generalizing i with
  | nil => intro s hs; simp [AIGoodNewsAgent.scoreArticles] at hs
  | cons a rest ih =>
    intro s hs
    rcases List.mem_cons.mp hs with rfl | hs
    · simp
    · have := ih (i + 1) s hs
      simp only [List.length_cons]
      omega

theorem rankArticles_length :
    ∀ (r : Nat) (l : List AIGoodNewsAgent.ScoredArticle),
      (AIGoodNewsAgent.rankArticles r l).length = l.length := by
  intro r l
  induction l generalizing r with
  | nil => rfl
  | cons s rest ih => simp [AIGoodNewsAgent.rankArticles, ih]

theorem rankArticles_getElem? :
    ∀ (l : List AIGoodNewsAgent.ScoredArticle) (r i : Nat)
      (t : AIGoodNewsAgent.TopArticle),
      (AIGoodNewsAgent.rankArticles r l)[i]? = some t →
      t.rank = r + i + 1
      ∧ t.whyPositive = "This development represents positive progress in AI technology"
      ∧ t.keyPoints =
          ["Advances the field of artificial intelligence",
           "Demonstrates practical applications of AI",
           "Shows continued innovation in the sector"] := by
  intro l
  induction l with
  | nil => intro r i t ht; simp [AIGoodNewsAgent.rankArticles] at ht
  | cons s rest ih =>
    intro r i t ht
    rw [AIGoodNewsAgent.rankArticles] at ht
    match i with
    | 0 =>
      rw [List.getElem?_cons_zero] at ht
      cases ht
      exact ⟨by simp, rfl, rfl⟩
    | i + 1 =>
      rw [List.getElem?_cons_succ] at ht
      obtain ⟨h1, h2, h3⟩ := ih (r + 1) i t ht
      exact ⟨by omega, h2, h3⟩

theorem rankArticles_mem_originalIndex :
    ∀ (r : Nat) (l : List AIGoodNewsAgent.ScoredArticle)
      (t : AIGoodNewsAgent.TopArticle),
      t ∈ AIGoodNewsAgent.rankArticles r l →
      ∃ s ∈ l, t.originalIndex = s.originalIndex := by
  intro r l
  induction l generalizing r with
  | nil => intro t ht; simp [AIGoodNewsAgent.rankArticles] at ht
  | cons s rest ih =>
    intro t ht
    rw [AIGoodNewsAgent.rankArticles] at ht
    rcases List.mem_cons.mp ht with rfl | ht
    · exact ⟨s, by simp⟩
    · obtain ⟨s2, hs2, he⟩ := ih (r + 1) t ht
      exact ⟨s2, by simp [hs2], he⟩

theorem fallbackAnalysis_topArticles_length (articles : List AIGoodNewsAgent.Article) :
    (AIGoodNewsAgent.fallbackAnalysis articles).topArticles.length
      = min 3 articles.length := by
  simp only [AIGoodNewsAgent.fallbackAnalysis]
  rw [rankArticles_length, List.length_take, sortLe_length, scoreArticles_length]

theorem fallbackAnalysis_valid_index (articles : List AIGoodNewsAgent.Article)
    (t : AIGoodNewsAgent.TopArticle)
    (ht : t ∈ (AIGoodNewsAgent.fallbackAnalysis articles).topArticles) :
    t.originalIndex < articles.length := by
  simp only [AIGoodNewsAgent.fallbackAnalysis] at ht
  obtain ⟨s, hs, he⟩ := rankArticles_mem_originalIndex 0 _ t ht
  have hs2 : s ∈ sortLe (fun a b => b.score ≤ a.score)
      (AIGoodNewsAgent.scoreArticles 0 articles) :=
    (List.take_sublist 3 _).mem hs
  have hs3 : s ∈ AIGoodNewsAgent.scoreArticles 0 articles :=
    (sortLe_perm _ _).mem_iff.mp hs2
  have := scoreArticles_originalIndex 0 articles s hs3
  omega

/-! Claim theorems. -/

/-- C7: calculateRelevanceScore returns exactly the clamped sum of 0.15 per
occurrence of each query keyword longer than 2 characters, 0.3 per
high-value phrase present, 0.2 per medium-value term present and 0.1 per
news-action term present, and the result always lies in [0, 1]. -/
theorem calculateRelevanceScore_spec (text query : String) :
    calculateRelevanceScore text query
      = min (keywordScore (jsToLower text) (queryWordsOf query)
          + presenceBonus (jsToLower text) highValueTerms 0.3
          + presenceBonus (jsToLower text) mediumValueTerms 0.2
          + presenceBonus (jsToLower text) newsTerms 0.1) 1
    ∧ 0 ≤ calculateRelevanceScore text query
    ∧ calculateRelevanceScore text query ≤ 1 :=
  ⟨calculateRelevanceScore_eq text query,
   calculateRelevanceScore_nonneg text query,
   calculateRelevanceScore_le_one text query⟩

/-- C10 (amended): every Article kept by parseSearchResults has a relevance
score in [0, 1]; articles built from RelatedTopics or Results carry
`calculateRelevanceScore` of their own summary and originating query, while
an article built from the direct abstract result carries the fixed score
0.9 instead. -/
theorem parseSearchResults_relevance (domainOf : String → String)
    (data : DDGResponse) (query : String) (a : Article)
    (ha : a ∈ parseSearchResults domainOf data query) :
    (0 ≤ a.relevanceScore ∧ a.relevanceScore ≤ 1)
    ∧ (a.relevanceScore = 0.9
       ∨ a.relevanceScore = calculateRelevanceScore a.summary query) :=
  ⟨parseSearchResults_score_bounds domainOf data query a ha,
   parseSearchResults_mem_score domainOf data query a ha⟩

/-- C10 witness: a concrete payload producing one kept article, to which the
amended claim applies. -/
theorem parseSearchResults_relevance_witness :
    ∃ a, parseSearchResults (fun _ => "example.org") demoDDGData "zz" = [a]
      ∧ (0 ≤ a.relevanceScore ∧ a.relevanceScore ≤ 1)
      ∧ (a.relevanceScore = 0.9
         ∨ a.relevanceScore = calculateRelevanceScore a.summary "zz") := by
  obtain ⟨a, ha⟩ : ∃ a, parseSearchResults (fun _ => "example.org") demoDDGData "zz" = [a] :=
    ⟨_, rfl⟩
  have hmem : a ∈ parseSearchResults (fun _ => "example.org") demoDDGData "zz" := by
    rw [ha]; exact List.mem_singleton_self a
  obtain ⟨h1, h2⟩ := parseSearchResults_relevance (fun _ => "example.org")
    demoDDGData "zz" a hmem
  exact ⟨a, ha, h1, h2⟩

/-- C10 counterexample: the direct abstract result is kept with the fixed
relevance score 0.9, which differs from calculateRelevanceScore of its
summary and query (here 1/2), refuting the claim that every kept hit,
including the abstract one, is scored by calculateRelevanceScore. -/
theorem parseSearchResults_abstract_fixed_score :
    (parseSearchResults (fun _ => "example.org") demoDDGData "zz").map
        Article.relevanceScore = [0.9]
    ∧ (parseSearchResults (fun _ => "example.org") demoDDGData "zz").map
        Article.summary = [demoAbstractText]
    ∧ calculateRelevanceScore demoAbstractText "zz" = 1/2
    ∧ (0.9 : ℚ) ≠ 1/2 := by
  refine ⟨rfl, rfl, ?_, by norm_num⟩
  rw [calculateRelevanceScore_eq]
  have h1 : (queryWordsOf "zz").filter (fun w => 2 < w.length) = [] := by decide
  have h2 : (highValueTerms.filter
      (fun t => jsIncludes (jsToLower demoAbstractText) t)).length = 1 := by decide
  have h3 : (mediumValueTerms.filter
      (fun t => jsIncludes (jsToLower demoAbstractText) t)).length = 0 := by decide
  have h4 : (newsTerms.filter
      (fun t => jsIncludes (jsToLower demoAbstractText) t)).length = 2 := by decide
  unfold keywordScore presenceBonus
  rw [h1, h2, h3, h4]
  rw [show ((([] : List String).map
    (fun w => (countOccStr (jsToLower demoAbstractText) w : ℚ) * 0.15)).sum) = 0 from rfl]
  rw [min_eq_left (by norm_num)]
  norm_num

/-- C5: the output of filterAndRankArticles never contains two articles with
the same url, and every article it returns is exactly the first occurrence
of its url in the input list. -/
theorem filterAndRankArticles_dedup (articles : List Article) :
    (filterAndRankArticles articles).Pairwise (fun a b => a.url ≠ b.url)
    ∧ ∀ a ∈ filterAndRankArticles articles,
        articles.find? (fun b => b.url == a.url) = some a := by
  have hsub : ∀ a ∈ filterAndRankArticles articles, a ∈ dedupByUrl [] articles := by
    intro a ha
    simp only [filterAndRankArticles] at ha
    have h1 : a ∈ sortLe articleLe ((dedupByUrl [] articles).filter qualityPred) :=
      (List.take_sublist maxResults _).mem ha
    have h2 : a ∈ (dedupByUrl [] articles).filter qualityPred :=
      (sortLe_perm articleLe _).mem_iff.mp h1
    exact (List.mem_filter.mp h2).1
  constructor
  · simp only [filterAndRankArticles]
    have hp1 : ((dedupByUrl [] articles).filter qualityPred).Pairwise
        (fun a b => a.url ≠ b.url) :=
      List.Pairwise.sublist (List.filter_sublist _) (dedupByUrl_pairwise articles [])
    have hp2 : (sortLe articleLe ((dedupByUrl [] articles).filter qualityPred)).Pairwise
        (fun a b => a.url ≠ b.url) :=
      ((sortLe_perm articleLe _).pairwise_iff (fun h => h.symm)).mpr hp1
    exact List.Pairwise.sublist (List.take_sublist maxResults _) hp2
  · intro a ha
    exact (dedupByUrl_find articles [] a (hsub a ha)).2

/-- C5 witness: on an input with a duplicated url, the kept article is a
member of the output and is the first occurrence of its url. -/
theorem filterAndRankArticles_dedup_witness :
    demoArticle ∈ filterAndRankArticles demoDupList
    ∧ demoDupList.find? (fun b => b.url == demoArticle.url) = some demoArticle := by
  have hscore : ¬ (demoArticle.relevanceScore < minRelevanceScore) := by
    norm_num [demoArticle, minRelevanceScore]
  have hq : qualityPred demoArticle = true := by
    unfold qualityPred
    rw [decide_eq_false hscore]
    decide
  have hd : dedupByUrl [] demoDupList = [demoArticle] := by rfl
  have hout : filterAndRankArticles demoDupList = [demoArticle] := by
    simp only [filterAndRankArticles]
    rw [hd, List.filter_cons, hq]
    rfl
  have hmem : demoArticle ∈ filterAndRankArticles demoDupList := by
    rw [hout]; exact List.mem_singleton_self _
  exact ⟨hmem, (filterAndRankArticles_dedup demoDupList).2 demoArticle hmem⟩

/-- C8: every article returned by filterAndRankArticles has a relevance
score in [0, 1] and at least the configured minimum, a summary of at least
100 characters, and a source matching no denylist entry case-insensitively.
The upper bound 1 is inherited from the input articles; in the pipeline the
filter only ever receives normalizer output, whose scores are bounded by 1,
so the searchAINews composition satisfies the property outright (second
conjunct). -/
theorem filterAndRankArticles_quality :
    (∀ articles : List Article, (∀ a ∈ articles, a.relevanceScore ≤ 1) →
      ∀ a ∈ filterAndRankArticles articles, qualityProps a)
    ∧ ∀ (domainOf : String → String)
        (payload : String → String → Except String DDGResponse),
        ∀ a ∈ (searchAINews domainOf payload).1, qualityProps a := by
  have hmain : ∀ articles : List Article, (∀ a ∈ articles, a.relevanceScore ≤ 1) →
      ∀ a ∈ filterAndRankArticles articles, qualityProps a := by
    intro articles hub a ha
    simp only [filterAndRankArticles] at ha
    have h1 : a ∈ sortLe articleLe ((dedupByUrl [] articles).filter qualityPred) :=
      (List.take_sublist maxResults _).mem ha
    have h2 : a ∈ (dedupByUrl [] articles).filter qualityPred :=
      (sortLe_perm articleLe _).mem_iff.mp h1
    obtain ⟨hmem, hpred⟩ := List.mem_filter.mp h2
    have hin : a ∈ articles := dedupByUrl_subset articles [] a hmem
    simp only [qualityPred, Bool.and_eq_true, Bool.not_eq_true',
      decide_eq_false_iff_not, not_lt, List.any_eq_false] at hpred
    obtain ⟨⟨hexcl, hscore⟩, hlen⟩ := hpred
    have hmin03 : (0 : ℚ) ≤ minRelevanceScore := by norm_num [minRelevanceScore]
    refine ⟨le_trans hmin03 hscore, hub a hin, hscore, hlen, ?_⟩
    intro e he
    simpa using hexcl e he
  refine ⟨hmain, ?_⟩
  intro domainOf payload a ha
  simp only [searchAINews] at ha
  split at ha
  · exact hmain _ (fun b hb => (performSearch_score_bounds domainOf payload "w" b hb).2) a ha
  · exact hmain _ (fun b hb => (performSearch_score_bounds domainOf payload "d" b hb).2) a ha

/-- C8 witness: a concrete bounded-score input on which the filter keeps an
article satisfying all quality properties. -/
theorem filterAndRankArticles_quality_witness :
    (∀ a ∈ demoDupList, a.relevanceScore ≤ 1)
    ∧ ∀ a ∈ filterAndRankArticles demoDupList, qualityProps a := by
  have hub : ∀ a ∈ demoDupList, a.relevanceScore ≤ 1 := by
    intro a ha
    rcases List.mem_cons.mp ha with rfl | ha
    · norm_num [demoArticle]
    · rcases List.mem_singleton.mp ha with rfl
      norm_num [demoArticleDup]
  exact ⟨hub, filterAndRankArticles_quality.1 demoDupList hub⟩

/-- C9: when the past-day batch of performSearch yields zero articles, the
whole batch is retried exactly once with the past-week timeframe before the
search stage returns; a non-empty first batch is returned (filtered and
ranked) without any widened retry. -/
theorem searchAINews_timeframe_retry (domainOf : String → String)
    (payload : String → String → Except String DDGResponse) :
    (performSearch domainOf payload "d" = [] →
      searchAINews domainOf payload
        = (filterAndRankArticles (performSearch domainOf payload "w"), ["d", "w"]))
    ∧ (performSearch domainOf payload "d" ≠ [] →
      searchAINews domainOf payload
        = (filterAndRankArticles (performSearch domainOf payload "d"), ["d"])) := by
  constructor
  · intro h
    simp [searchAINews, h]
  · intro h
    simp [searchAINews, List.length_eq_zero, h]

/-- C9 witness: with a transport that fails for every keyword the past-day
batch is empty and the past-week retry is performed; the log records exactly
the two timeframes. -/
theorem searchAINews_timeframe_retry_witness :
    performSearch (fun _ => "unknown") (fun _ _ => Except.error "offline") "d" = []
    ∧ searchAINews (fun _ => "unknown") (fun _ _ => Except.error "offline")
        = (filterAndRankArticles
            (performSearch (fun _ => "unknown") (fun _ _ => Except.error "offline") "w"),
           ["d", "w"]) :=
  ⟨rfl, (searchAINews_timeframe_retry _ _).1 rfl⟩

/-- C1 (amended): for every article and style, createLinkedInPost returns a
Post whose characterCount equals its content length, whose hashtag list has
at most 5 entries and starts with the two generic AI tags, and whose body is
ellipsis-truncated before the hashtag block and source line whenever it
exceeds the computed budget.  The bound
`characterCount ≤ maxCharacters` holds provided the hashtag string and the
source line leave at least 5 characters of budget (it fails for
pathologically long URLs, see the counterexample). -/
theorem createLinkedInPost_spec (article : Article) (style : String)
    (hr qr ir : Nat) :
    (createLinkedInPost article style hr qr ir).characterCount
      = (createLinkedInPost article style hr qr ir).content.length
    ∧ (createLinkedInPost article style hr qr ir).hashtags.length ≤ 5
    ∧ "#ArtificialIntelligence" ∈ (createLinkedInPost article style hr qr ir).hashtags
    ∧ "#AI" ∈ (createLinkedInPost article style hr qr ir).hashtags
    ∧ ((joinSep " " (generateHashtags article)).length
        + ("\n\nSource: " ++ article.url).length + 5 ≤ maxCharacters →
        (createLinkedInPost article style hr qr ir).characterCount ≤ maxCharacters)
    ∧ ((maxCharacters : Int) - (joinSep " " (generateHashtags article)).length
        - ("\n\nSource: " ++ article.url).length - 10
        < ((styleContent article (extractKeyPoints article) style hr qr ir).length : Int) →
        ∃ body, (createLinkedInPost article style hr qr ir).content
          = body ++ "..." ++ "\n\n" ++ joinSep " " (generateHashtags article)
            ++ ("\n\nSource: " ++ article.url)) := by
  obtain ⟨rest, hrest⟩ := generateHashtags_shape article
  refine ⟨by simp [createLinkedInPost], ?_, ?_, ?_, ?_, ?_⟩
  · simpa [createLinkedInPost] using generateHashtags_length article
  · simp only [createLinkedInPost]
    rw [hrest]; simp
  · simp only [createLinkedInPost]
    rw [hrest]; simp
  · intro hbudget
    rw [createLinkedInPost_characterCount]
    set h := (joinSep " " (generateHashtags article)).length with hh
    set s := ("\n\nSource: " ++ article.url).length with hs
    set c := (styleContent article (extractKeyPoints article) style hr qr ir).length with hc
    rw [show (maxCharacters : Int) = 3000 from rfl] at *
    simp only [maxCharacters] at *
    split
    · rename_i hcond
      omega
    · rename_i hcond
      omega
  · intro hover
    simp only [createLinkedInPost]
    rw [if_pos hover]
    exact ⟨jsTake (styleContent article (extractKeyPoints article) style hr qr ir)
      ((maxCharacters : Int) - (joinSep " " (generateHashtags article)).length
        - ("\n\nSource: " ++ article.url).length - 10 - 3).toNat, by rw [String.append_assoc]⟩

/-- C1 witness: a normal article with a short URL satisfies the budget
hypothesis, and the resulting post stays within the 3000-character limit. -/
theorem createLinkedInPost_spec_witness :
    ((joinSep " " (generateHashtags demoArticle)).length
      + ("\n\nSource: " ++ demoArticle.url).length + 5 ≤ maxCharacters)
    ∧ (createLinkedInPost demoArticle "news_share" 0 0 0).characterCount
        ≤ maxCharacters := by
  have hbudget : (joinSep " " (generateHashtags demoArticle)).length
      + ("\n\nSource: " ++ demoArticle.url).length + 5 ≤ maxCharacters := by decide
  exact ⟨hbudget,
    (createLinkedInPost_spec demoArticle "news_share" 0 0 0).2.2.2.2.1 hbudget⟩

/-- C1 counterexample: with a 3000-character article URL the final post has
3042 characters, exceeding the configured maximum of 3000, so the claimed
unconditional bound `characterCount ≤ 3000` is false on the code. -/
theorem createLinkedInPost_exceeds_max :
    maxCharacters < (createLinkedInPost longUrlArticle "news_share" 0 0 0).characterCount := by
  rw [createLinkedInPost_characterCount]
  have h1 : generateHashtags longUrlArticle = ["#ArtificialIntelligence", "#AI"] := by
    decide
  have h2 : (joinSep " " ["#ArtificialIntelligence", "#AI"]).length = 27 := by decide
  have hurl : longUrlArticle.url.length = 3000 := by
    rw [show longUrlArticle.url = String.mk (List.replicate 3000 'a') from rfl]
    exact List.length_replicate 3000 'a'
  have h3 : ("\n\nSource: " ++ longUrlArticle.url).length = 3010 := by
    rw [String.length_append, hurl,
      show ("\n\nSource: " : String).length = 10 from rfl]
  have h4 : (styleContent longUrlArticle (extractKeyPoints longUrlArticle)
      "news_share" 0 0 0).length = 77 := by decide
  rw [h1, h2, h3, h4]
  norm_num [maxCharacters]

/-- C2: one run of the part_005 orchestrator marks and saves seen articles
exactly on the path where a post was produced: if search fails, yields no
article, or post generation throws, the seen list is unchanged and no save
happens; the save occurs precisely when search succeeded with a non-empty
batch and generation returned a post, in which case the discovered URLs are
appended. -/
theorem run_marks_seen_only_after_post (seen : List String)
    (searchOutcome : Except String (List AIGoodNewsAgent.Article))
    (analyzeStep : List AIGoodNewsAgent.Article → AIGoodNewsAgent.Analysis)
    (generateStep : AIGoodNewsAgent.Analysis → List AIGoodNewsAgent.Article →
      Except String String) :
    ((AIGoodNewsAgent.run seen searchOutcome analyzeStep generateStep).saved = false →
      (AIGoodNewsAgent.run seen searchOutcome analyzeStep generateStep).seenAfter = seen)
    ∧ ((AIGoodNewsAgent.run seen searchOutcome analyzeStep generateStep).saved = true ↔
        ∃ articles post, searchOutcome = Except.ok articles ∧ articles.length ≠ 0 ∧
          generateStep (analyzeStep articles) articles = Except.ok post)
    ∧ (∀ articles post, searchOutcome = Except.ok articles → articles.length ≠ 0 →
        generateStep (analyzeStep articles) articles = Except.ok post →
        (AIGoodNewsAgent.run seen searchOutcome analyzeStep generateStep).seenAfter
          = AIGoodNewsAgent.markSeen seen articles) := by
  rcases searchOutcome with err | articles
  · refine ⟨fun _ => rfl, ?_, ?_⟩
    · simp [AIGoodNewsAgent.run]
    · intro articles post h
      cases h
  · by_cases hlen : articles.length = 0
    · refine ⟨?_, ?_, ?_⟩
      · intro _
        simp [AIGoodNewsAgent.run, hlen]
      · simp only [AIGoodNewsAgent.run, if_pos hlen]
        constructor
        · intro h
          cases h
        · rintro ⟨articles2, post, heq, hne, _⟩
          cases heq
          exact absurd hlen hne
      · intro articles2 post heq hne
        cases heq
        exact absurd hlen hne
    · rcases hgen : generateStep (analyzeStep articles) articles with gerr | post
      · refine ⟨?_, ?_, ?_⟩
        · intro _
          simp [AIGoodNewsAgent.run, hlen, hgen]
        · simp only [AIGoodNewsAgent.run, if_neg hlen, hgen]
          constructor
          · intro h
            cases h
          · rintro ⟨articles2, post, heq, _, hok⟩
            cases heq
            rw [hgen] at hok
            cases hok
        · intro articles2 post heq hne hok
          cases heq
          rw [hgen] at hok
          cases hok
      · have hsaved : (AIGoodNewsAgent.run seen (Except.ok articles)
            analyzeStep generateStep).saved = true := by
          simp only [AIGoodNewsAgent.run, if_neg hlen, hgen]
          split <;> rfl
        have hseen : (AIGoodNewsAgent.run seen (Except.ok articles)
            analyzeStep generateStep).seenAfter
              = AIGoodNewsAgent.markSeen seen articles := by
          simp only [AIGoodNewsAgent.run, if_neg hlen, hgen]
          split <;> rfl
        refine ⟨?_, ?_, ?_⟩
        · intro h
          rw [hsaved] at h
          cases h
        · simp only [hsaved, true_iff]
          exact ⟨articles, post, rfl, hlen, hgen⟩
        · intro articles2 post2 heq _ _
          cases heq
          exact hseen

/-- C2 witness: a failing search leaves the seen list untouched and performs
no save. -/
theorem run_marks_seen_only_after_post_witness :
    (AIGoodNewsAgent.run ["https://seen.example"] (Except.error "network down")
      (fun _ => {}) (fun _ _ => Except.ok "post")).saved = false
    ∧ (AIGoodNewsAgent.run ["https://seen.example"] (Except.error "network down")
      (fun _ => {}) (fun _ _ => Except.ok "post")).seenAfter = ["https://seen.example"] :=
  ⟨rfl,
   (run_marks_seen_only_after_post ["https://seen.example"] (Except.error "network down")
     (fun _ => {}) (fun _ _ => Except.ok "post")).1 rfl⟩

/-- C6: without a backend credential the analyzer performs no network call
and returns the local fallback; a backend or parse failure also returns the
local fallback and never surfaces the error; the fallback has exactly
min(3, articles.length) entries, ranked 1..N with the fixed template
narrative fields. -/
theorem analyzeWithGemini_fallback_spec (articles : List AIGoodNewsAgent.Article)
    (backend : Except String AIGoodNewsAgent.Analysis) (key err : String) :
    AIGoodNewsAgent.analyzeWithGemini none backend articles
      = (AIGoodNewsAgent.fallbackAnalysis articles, false)
    ∧ AIGoodNewsAgent.analyzeWithGemini (some key) (Except.error err) articles
      = (AIGoodNewsAgent.fallbackAnalysis articles, true)
    ∧ (AIGoodNewsAgent.fallbackAnalysis articles).topArticles.length
      = min 3 articles.length
    ∧ (∀ (i : Nat) (t : AIGoodNewsAgent.TopArticle),
        (AIGoodNewsAgent.fallbackAnalysis articles).topArticles[i]? = some t →
        t.rank = i + 1
        ∧ t.whyPositive = "This development represents positive progress in AI technology"
        ∧ t.keyPoints =
            ["Advances the field of artificial intelligence",
             "Demonstrates practical applications of AI",
             "Shows continued innovation in the sector"]) := by
  refine ⟨rfl, rfl, fallbackAnalysis_topArticles_length articles, ?_⟩
  intro i t ht
  simp only [AIGoodNewsAgent.fallbackAnalysis] at ht
  obtain ⟨h1, h2, h3⟩ := rankArticles_getElem? _ 0 i t ht
  exact ⟨by omega, h2, h3⟩

/-- C6 witness: on a concrete two-article batch the analyzer without a key
returns the fallback without touching the network, the fallback has
min(3, 2) = 2 entries and its first entry is ranked 1. -/
theorem analyzeWithGemini_fallback_spec_witness :
    AIGoodNewsAgent.analyzeWithGemini none (Except.error "boom") AIGoodNewsAgent.demoBatch
      = (AIGoodNewsAgent.fallbackAnalysis AIGoodNewsAgent.demoBatch, false)
    ∧ (AIGoodNewsAgent.fallbackAnalysis AIGoodNewsAgent.demoBatch).topArticles.length
        = min 3 2
    ∧ ((AIGoodNewsAgent.fallbackAnalysis AIGoodNewsAgent.demoBatch).topArticles[0]?).map
        AIGoodNewsAgent.TopArticle.rank = some 1 := by
  have h := analyzeWithGemini_fallback_spec AIGoodNewsAgent.demoBatch
    (Except.error "boom") "key" "boom"
  refine ⟨h.1, ?_, ?_⟩
  · have h2 := h.2.2.1
    rwa [show AIGoodNewsAgent.demoBatch.length = 2 from rfl] at h2
  · obtain ⟨t, ht⟩ : ∃ t,
        (AIGoodNewsAgent.fallbackAnalysis AIGoodNewsAgent.demoBatch).topArticles[0]?
          = some t := ⟨_, rfl⟩
    rw [ht]
    have h3 := (h.2.2.2 0 t ht).1
    simp [h3]

/-- C3 (amended): the local fallback analysis always produces originalIndex
values that are valid indices into the article list it was given; the
backend path of analyzeWithGemini passes the parsed response through with no
validation, and when an entry carries an out-of-range originalIndex the
post-generation lookup fails with a thrown TypeError (modelled as
Except.error) instead of rejecting or clamping the index. -/
theorem originalIndex_validation_spec (articles : List AIGoodNewsAgent.Article)
    (key : String) (analysis : AIGoodNewsAgent.Analysis)
    (backendPost : Except String String) :
    (∀ t ∈ (AIGoodNewsAgent.fallbackAnalysis articles).topArticles,
      t.originalIndex < articles.length)
    ∧ AIGoodNewsAgent.analyzeWithGemini (some key) (Except.ok analysis) articles
      = (analysis, true)
    ∧ (∀ top, analysis.topArticles.head? = some top →
        articles.length ≤ top.originalIndex →
        AIGoodNewsAgent.generateLinkedInPost (some key) analysis articles backendPost
          = Except.error "TypeError: originalArticle is undefined") := by
  refine ⟨fun t ht => fallbackAnalysis_valid_index articles t ht, rfl, ?_⟩
  intro top hhead hge
  simp only [AIGoodNewsAgent.generateLinkedInPost, hhead]
  rw [List.getElem?_eq_none hge]

/-- C3 witness: the fallback indices on a concrete batch are in range, and a
backend analysis carrying index 5 against a two-article list makes the
post-generation lookup throw. -/
theorem originalIndex_validation_spec_witness :
    (∀ t ∈ (AIGoodNewsAgent.fallbackAnalysis AIGoodNewsAgent.demoBatch).topArticles,
      t.originalIndex < AIGoodNewsAgent.demoBatch.length)
    ∧ AIGoodNewsAgent.generateLinkedInPost (some "key") AIGoodNewsAgent.badAnalysis
        AIGoodNewsAgent.demoBatch (Except.ok "post")
      = Except.error "TypeError: originalArticle is undefined" := by
  have h := originalIndex_validation_spec AIGoodNewsAgent.demoBatch "key"
    AIGoodNewsAgent.badAnalysis (Except.ok "post")
  exact ⟨h.1, h.2.2 _ rfl (by decide)⟩

/-- C3 counterexample: analyzeWithGemini returns a backend analysis whose
originalIndex 5 is out of range for the two-article list unchanged, and the
subsequent lookup in generateLinkedInPost throws instead of rejecting or
clamping, refuting the claim that out-of-range indices from the backend are
rejected or clamped. -/
theorem analyzeWithGemini_passthrough_invalid_index :
    AIGoodNewsAgent.analyzeWithGemini (some "key")
        (Except.ok AIGoodNewsAgent.badAnalysis) AIGoodNewsAgent.demoBatch
      = (AIGoodNewsAgent.badAnalysis, true)
    ∧ (∃ t ∈ AIGoodNewsAgent.badAnalysis.topArticles,
        ¬ t.originalIndex < AIGoodNewsAgent.demoBatch.length)
    ∧ AIGoodNewsAgent.generateLinkedInPost (some "key") AIGoodNewsAgent.badAnalysis
        AIGoodNewsAgent.demoBatch (Except.ok "post")
      = Except.error "TypeError: originalArticle is undefined" := by
  refine ⟨rfl, ?_, rfl⟩
  refine ⟨_, List.mem_singleton_self _, ?_⟩
  decide

/-- C4 (amended): on the backend path the synthesizer returns the backend
text unchanged except for conditionally appending the source line (exactly
when the text does not contain "http" and the url is non-empty); it never
truncates the text and never appends hashtags itself — the hashtags and the
character limit are only requested from the backend inside the prompt. -/
theorem generateLinkedInPost_backend_spec (key : String)
    (analysis : AIGoodNewsAgent.Analysis) (articles : List AIGoodNewsAgent.Article)
    (top : AIGoodNewsAgent.TopArticle) (orig : AIGoodNewsAgent.Article)
    (post : String)
    (hhead : analysis.topArticles.head? = some top)
    (hget : articles[top.originalIndex]? = some orig) :
    AIGoodNewsAgent.generateLinkedInPost (some key) analysis articles (Except.ok post)
      = Except.ok (AIGoodNewsAgent.formatLinkedInPost post orig.url)
    ∧ post.length ≤ (AIGoodNewsAgent.formatLinkedInPost post orig.url).length
    ∧ (jsIncludes post "http" = true →
        AIGoodNewsAgent.formatLinkedInPost post orig.url = post)
    ∧ (jsIncludes post "http" = false → orig.url ≠ "" →
        AIGoodNewsAgent.formatLinkedInPost post orig.url
          = post ++ "\n\nSource: " ++ orig.url) := by
  refine ⟨?_, ?_, ?_, ?_⟩
  · simp only [AIGoodNewsAgent.generateLinkedInPost, hhead, hget]
  · unfold AIGoodNewsAgent.formatLinkedInPost
    split
    · rw [String.length_append, String.length_append]
      omega
    · exact le_refl _
  · intro hinc
    unfold AIGoodNewsAgent.formatLinkedInPost
    rw [if_neg]
    rintro ⟨hfalse, _⟩
    rw [hinc] at hfalse
    cases hfalse
  · intro hinc hne
    unfold AIGoodNewsAgent.formatLinkedInPost
    rw [if_pos ⟨hinc, hne⟩]

/-- C4 witness: a concrete short backend text without "http" is returned
with only the source line appended. -/
theorem generateLinkedInPost_backend_spec_witness :
    AIGoodNewsAgent.generateLinkedInPost (some "key") AIGoodNewsAgent.okAnalysis
        [AIGoodNewsAgent.demoItem] (Except.ok "hello")
      = Except.ok (AIGoodNewsAgent.formatLinkedInPost "hello" AIGoodNewsAgent.demoItem.url)
    ∧ AIGoodNewsAgent.formatLinkedInPost "hello" AIGoodNewsAgent.demoItem.url
      = "hello" ++ "\n\nSource: " ++ AIGoodNewsAgent.demoItem.url := by
  have h := generateLinkedInPost_backend_spec "key" AIGoodNewsAgent.okAnalysis
    [AIGoodNewsAgent.demoItem] _ AIGoodNewsAgent.demoItem "hello" rfl rfl
  exact ⟨h.1, h.2.2.2 (by decide) (by decide)⟩

/-- C4 counterexample: a 3500-character backend body is passed through with
no truncation (the result has 3532 characters, above any 3000-character
budget) and no hashtags are appended by the synthesizer, refuting the claim
that the template-path truncation and hashtag-append rule applies to the
backend path. -/
theorem generateLinkedInPost_no_truncation :
    AIGoodNewsAgent.generateLinkedInPost (some "key") AIGoodNewsAgent.okAnalysis
        [AIGoodNewsAgent.demoItem] (Except.ok AIGoodNewsAgent.longBackendPost)
      = Except.ok (AIGoodNewsAgent.longBackendPost ++ "\n\nSource: "
          ++ AIGoodNewsAgent.demoItem.url)
    ∧ 3000 < (AIGoodNewsAgent.longBackendPost ++ "\n\nSource: "
          ++ AIGoodNewsAgent.demoItem.url).length := by
  have hlen : AIGoodNewsAgent.longBackendPost.length = 3500 := by
    rw [show AIGoodNewsAgent.longBackendPost = String.mk (List.replicate 3500 'b') from rfl]
    exact List.length_replicate 3500 'b'
  have hinc : jsIncludes AIGoodNewsAgent.longBackendPost "http" = false := by
    rw [show jsIncludes AIGoodNewsAgent.longBackendPost "http"
      = containsSub ['h', 't', 't', 'p'] (List.replicate 3500 'b') from rfl]
    exact containsSub_replicate_ne 'b' 'h' ['t', 't', 'p'] (by decide) 3500
  constructor
  · have hstep : AIGoodNewsAgent.generateLinkedInPost (some "key")
        AIGoodNewsAgent.okAnalysis [AIGoodNewsAgent.demoItem]
        (Except.ok AIGoodNewsAgent.longBackendPost)
      = Except.ok (AIGoodNewsAgent.formatLinkedInPost
          AIGoodNewsAgent.longBackendPost AIGoodNewsAgent.demoItem.url) := rfl
    rw [hstep]
    unfold AIGoodNewsAgent.formatLinkedInPost
    rw [if_pos ⟨hinc, by decide⟩]
  · rw [String.length_append, String.length_append, hlen,
      show ("\n\nSource: " : String).length = 10 from rfl]
    omega
